import Mathlib

/-!
Shallow embedding of the seenons-open-wastescan core: the scan data model,
the LocalStorage-backed repository with schema versioning (src/js/storage.js),
the derived-metric computations duplicated between the editor summary
(src/js/views/editor.js) and the report generator (src/js/report/export.js),
the Gemini analysis-result normalization (src/js/api/gemini.js) together
with its application to the current scan (editor.js handleAnalyze), and the
settings (API key) store.

Numbers are modelled as `Rat`: the properties under study involve only
exact comparisons, `max`/guard logic and sums, on which IEEE doubles and
rationals agree for the inputs considered.  JavaScript truthiness on the
values that actually flow through this code is modelled explicitly:
`x || 0` on an optional number is `Option.getD x 0` (`NaN` cannot reach
these sites: `parseNumber` and the gemini normalizer are `isNaN`-guarded,
and `JSON.parse` never produces `NaN`), and `x || null` on an optional
string collapses the empty string to `none`.  A LocalStorage cell is
modelled as absent, malformed (bytes on which `JSON.parse` throws), or a
parsed document.  `generateUUID` is modelled as an injective
counter-indexed supply of fresh identifiers; operations that call it
thread the counter and advance it exactly where the source calls
`generateUUID()`.
-/

/-- JS `s || null` on an optional string: `""`, `null` and `undefined`
collapse to `none`; every other string passes through. -/
def jsStrOrNull (x : Option String) : Option String :=
  match x with
  | none => none
  | some s => if s = "" then none else some s

/-- JS `v || 0` on an optional number: a missing value collapses to `0`;
every other value, negative values included, passes through (`0 || 0` is
`0`, so `getD` agrees on the zero case as well). -/
def jsNumOr0 (x : Option Rat) : Rat := x.getD 0

/-- JS truthiness of an optional string value (`null`/`undefined`/`""` are
falsy). -/
def jsTruthy (x : Option String) : Bool :=
  match x with
  | none => false
  | some s => s != ""

/-- Model of `generateUUID` (src/js/utils/uuid.js): an injective supply of
fresh identifiers indexed by a counter. -/
def uuidGen (n : Nat) : String := String.append ("uuid-") (toString n)

/-- `parseNumber` (src/js/utils/format.js:82-85): `parseFloat` then
`isNaN(parsed) ? 0 : parsed`.  The string-to-number parse itself is
abstracted as an optional rational, `none` standing for an unparseable
input (`NaN`); a parsed negative number passes through unchanged. -/
def parseNumber (parsed : Option Rat) : Rat :=
  match parsed with
  | none => 0
  | some v => v

/-- Embedded photo record `{dataUrl, mime}` (an opaque value blob). -/
structure Photo where
  dataUrl : String
  mime : String
deriving DecidableEq, Repr

/-- A persisted stream line item `{id, name, weightKg}`. -/
structure StreamEntry where
  id : String
  name : String
  weightKg : Rat
deriving DecidableEq, Repr

/-- A stream as supplied to `createScan`/`updateScan` before
normalization: `id` may be missing (or empty) and `weightKg` missing. -/
structure DraftStream where
  id : Option String
  name : String
  weightKg : Option Rat
deriving DecidableEq, Repr

/-- A scan record as stored and edited.  `totalResidualKg` is optional
because the JS field may be absent; every computation site reads it as
`scan.totalResidualKg || 0`. -/
structure Scan where
  id : String
  createdAt : String
  updatedAt : String
  location : Option String
  notes : Option String
  photo : Option Photo
  totalResidualKg : Option Rat
  streams : List StreamEntry
deriving DecidableEq, Repr

/-- Input to `createScan` (storage.js:112): any subset of the data
fields of a scan. -/
structure DraftScan where
  location : Option String
  notes : Option String
  photo : Option Photo
  totalResidualKg : Option Rat
  streams : Option (List DraftStream)
deriving DecidableEq, Repr

/-- Input to `updateScan` (storage.js:143): a shallow patch.  `none`
means the field is absent from the `updates` object, so the spread
`{...old, ...updates}` retains the existing value; `some` overwrites it,
`id` and `createdAt` included.  An `updatedAt` member of the patch would
be overwritten immediately by `updatedAt: now`, so it is not modelled. -/
structure ScanPatch where
  id : Option String
  createdAt : Option String
  location : Option (Option String)
  notes : Option (Option String)
  photo : Option (Option Photo)
  totalResidualKg : Option Rat
  streams : Option (List DraftStream)
deriving DecidableEq, Repr

/-- The empty patch `{}`. -/
def emptyPatch : ScanPatch :=
  { id := none, createdAt := none, location := none, notes := none,
    photo := none, totalResidualKg := none, streams := none }

/-- The persisted collection document `{schemaVersion, scans}`. -/
structure Data where
  schemaVersion : Int
  scans : List Scan
deriving DecidableEq, Repr

/-- The scans-collection LocalStorage cell: absent key, bytes on which
`JSON.parse` throws, or a parsed document. -/
inductive StoredBytes where
  | absent : StoredBytes
  | malformed : StoredBytes
  | doc : Data → StoredBytes
deriving DecidableEq, Repr

/-- storage.js:9. -/
def CURRENT_SCHEMA_VERSION : Int := 1

/-- storage.js:15-20 `getDefaultData`. -/
def getDefaultData : Data :=
  { schemaVersion := CURRENT_SCHEMA_VERSION, scans := [] }

/-- storage.js:27-42 `migrateSchema`: deep-clones the document and applies
the migration chain, which is empty at schema version 1 (the body is a
placeholder comment), so the function is the identity; in particular it
does not raise `schemaVersion`. -/
def migrateSchema (data : Data) : Data := data

/-- storage.js:48-68 `loadData`: returns the loaded document together with
the state of the storage cell after the call (the migration branch writes
back via `saveData`; the catch branch and the no-stored-data branch do
not write). -/
def loadData (st : StoredBytes) : Data × StoredBytes :=
  match st with
  | .absent => (getDefaultData, .absent)
  | .malformed => (getDefaultData, .malformed)
  | .doc d =>
    if d.schemaVersion < CURRENT_SCHEMA_VERSION then
      let m := migrateSchema d
      (m, .doc m)
    else
      (d, .doc d)

/-- Stream normalization shared by storage.js:124-128 and
storage.js:158-164:
`{id: stream.id || generateUUID(), name: stream.name, weightKg: stream.weightKg || 0}`.
The uuid counter advances exactly where `generateUUID()` is called. -/
def normStreams (n : Nat) : List DraftStream → List StreamEntry × Nat
  | [] => ([], n)
  | s :: rest =>
    match jsStrOrNull s.id with
    | some i =>
      let p := normStreams n rest
      ({ id := i, name := s.name, weightKg := jsNumOr0 s.weightKg } :: p.1, p.2)
    | none =>
      let p := normStreams (n + 1) rest
      ({ id := uuidGen n, name := s.name, weightKg := jsNumOr0 s.weightKg } :: p.1, p.2)

/-- storage.js:112-135 `createScan`: returns the new record, the storage
state after `saveData`, and the advanced uuid counter.  Field by field:
`location: scanData.location || null`, `notes: scanData.notes || null`,
`photo: scanData.photo || null`, `totalResidualKg: scanData.totalResidualKg || 0`,
`streams: (scanData.streams || []).map(...)`. -/
def createScan (now : String) (n : Nat) (sd : DraftScan) (st : StoredBytes) :
    Scan × StoredBytes × Nat :=
  let data := (loadData st).1
  let p := normStreams (n + 1) (sd.streams.getD [])
  let newScan : Scan :=
    { id := uuidGen n
      createdAt := now
      updatedAt := now
      location := jsStrOrNull sd.location
      notes := jsStrOrNull sd.notes
      photo := sd.photo
      totalResidualKg := some (jsNumOr0 sd.totalResidualKg)
      streams := p.1 }
  (newScan, .doc { data with scans := data.scans ++ [newScan] }, p.2)

/-- View of an already-normalized stream as re-normalization input: the
merged object's `streams` member when the patch omits `streams`. -/
def StreamEntry.toDraft (e : StreamEntry) : DraftStream :=
  { id := some e.id, name := e.name, weightKg := some e.weightKg }

/-- The merged record built at storage.js:151-164:
`{...data.scans[index], ...updates, updatedAt: now}` followed by the
stream re-normalization (the merged `streams` member is always a truthy
array here, so the `if (updatedScan.streams)` guard always runs it). -/
def mergeScan (now : String) (old : Scan) (patch : ScanPatch) (n : Nat) :
    Scan × Nat :=
  let ds := match patch.streams with
    | some l => l
    | none => old.streams.map StreamEntry.toDraft
  let p := normStreams n ds
  ({ id := patch.id.getD old.id
     createdAt := patch.createdAt.getD old.createdAt
     updatedAt := now
     location := patch.location.getD old.location
     notes := patch.notes.getD old.notes
     photo := patch.photo.getD old.photo
     totalResidualKg := match patch.totalResidualKg with
       | some v => some v
       | none => old.totalResidualKg
     streams := p.1 }, p.2)

/-- `data.scans.find(scan => scan.id === id)` (storage.js:104, the body of
`getScanById`); also the record located by `findIndex` at storage.js:145
and storage.js:179 (first match). -/
def findScan (id : String) : List Scan → Option Scan
  | [] => none
  | s :: rest => if s.id = id then some s else findScan id rest

/-- The `findIndex` plus in-place replacement of storage.js:145-166 on the
scans list: `none` when no record has the id, otherwise the new list, the
updated record and the advanced uuid counter. -/
def updateGo (now : String) (id : String) (patch : ScanPatch) (n : Nat) :
    List Scan → Option (List Scan × Scan × Nat)
  | [] => none
  | s :: rest =>
    if s.id = id then
      let m := mergeScan now s patch n
      some (m.1 :: rest, m.1, m.2)
    else
      match updateGo now id patch n rest with
      | none => none
      | some (l, u, n2) => some (s :: l, u, n2)

/-- storage.js:143-170 `updateScan`: `null` and untouched storage when the
id is absent (the function returns before `saveData`; the storage state is
whatever `loadData` left), otherwise the updated record is written. -/
def updateScan (now : String) (n : Nat) (id : String) (patch : ScanPatch)
    (st : StoredBytes) : Option Scan × StoredBytes × Nat :=
  let data := (loadData st).1
  match updateGo now id patch n data.scans with
  | none => (none, (loadData st).2, n)
  | some (l, u, n2) => (some u, .doc { data with scans := l }, n2)

/-- The `findIndex` plus `splice(index, 1)` of storage.js:179-185: removes
the first record with the id. -/
def deleteGo (id : String) : List Scan → Option (List Scan)
  | [] => none
  | s :: rest =>
    if s.id = id then some rest
    else match deleteGo id rest with
      | none => none
      | some l => some (s :: l)

/-- storage.js:177-189 `deleteScan`: `false` and untouched storage when
the id is absent, otherwise the shrunk collection is written. -/
def deleteScan (id : String) (st : StoredBytes) : Bool × StoredBytes :=
  let data := (loadData st).1
  match deleteGo id data.scans with
  | none => (false, (loadData st).2)
  | some l => (true, .doc { data with scans := l })

/-- The read `scan.totalResidualKg || 0` applied at every computation site
(export.js:13, editor.js:224). -/
def totalRead (scan : Scan) : Rat := jsNumOr0 scan.totalResidualKg

/-- `scan.streams.reduce((sum, s) => sum + (s.weightKg || 0), 0)`
(export.js:14, editor.js:225); `weightKg` is always a number on stored and
edited records, so the inner `|| 0` is the identity here. -/
def extractedKg (scan : Scan) : Rat :=
  scan.streams.foldl (fun sum s => sum + s.weightKg) 0

/-- `Math.max(0, totalResidualKg - extractedKg)` (export.js:15,
editor.js:226). -/
def remainingKg (scan : Scan) : Rat :=
  max 0 (totalRead scan - extractedKg scan)

/-- `totalResidualKg > 0 ? (extractedKg / totalResidualKg * 100) : 0`
(export.js:16, editor.js:227). -/
def separationPct (scan : Scan) : Rat :=
  if 0 < totalRead scan then extractedKg scan / totalRead scan * 100 else 0

/-- Per-stream share
`totalResidualKg > 0 ? (stream.weightKg / totalResidualKg * 100) : 0`
(export.js:35, editor.js:244). -/
def streamSharePct (scan : Scan) (s : StreamEntry) : Rat :=
  if 0 < totalRead scan then s.weightKg / totalRead scan * 100 else 0

/-- The editor summary warning condition
`extractedKg > totalResidualKg && totalResidualKg > 0` (editor.js:259);
this is also the specification formula for `isOverExtracted`. -/
def isOverExtracted (scan : Scan) : Bool :=
  decide (totalRead scan < extractedKg scan) && decide (0 < totalRead scan)

/-- The report warning fragment of export.js:55-59:
`extractedKg > totalResidualKg ? '<div class="warning">...</div>' : ''`.
Note the absence of a `totalResidualKg > 0` conjunct. -/
def warningHtml (scan : Scan) : String :=
  if totalRead scan < extractedKg scan then
    "<div class=\"warning\">Note: Extracted weight exceeds total residual weight. Values may be estimates.</div>"
  else ""

/-- The generated document interpolates `${warningHtml}` unconditionally
(export.js:116), so the report contains the visible warning block exactly
when the fragment is non-empty. -/
def reportHasWarning (scan : Scan) : Bool := warningHtml scan != ""

/-- One entry of the parsed model response before normalization: `name`
may be missing or empty, `weightKg` is what `parseFloat` sees (`none`
models a non-numeric value, i.e. `NaN`). -/
structure RawStream where
  name : Option String
  weightKg : Option Rat
deriving DecidableEq, Repr

/-- The parsed model response (gemini.js:108).  `streams := none` models a
missing or non-array `streams` member, `totalEstimateKg := none` a
non-numeric one. -/
structure RawResult where
  streams : Option (List RawStream)
  totalEstimateKg : Option Rat
  confidence : Option String
  notes : Option String
deriving DecidableEq, Repr

/-- A name/weight pair of the validated analysis result. -/
structure NamedWeight where
  name : String
  weightKg : Rat
deriving DecidableEq, Repr

/-- The validated analysis result returned by `analyzeWasteImage`. -/
structure AnalyzeResult where
  streams : List NamedWeight
  totalEstimateKg : Rat
  confidence : Option String
  notes : Option String
deriving DecidableEq, Repr

/-- `String(stream.name || 'Unknown')` (gemini.js:117): a missing or
empty name is replaced, not removed. -/
def jsNameOrUnknown (x : Option String) : String :=
  match x with
  | none => "Unknown"
  | some s => if s = "" then "Unknown" else s

/-- `result.streams.reduce((sum, s) => sum + s.weightKg, 0)`
(gemini.js:122). -/
def sumWeights (l : List NamedWeight) : Rat :=
  l.foldl (fun sum s => sum + s.weightKg) 0

/-- gemini.js:111-124: validation and normalization of the parsed
response.  `none` models the thrown `Invalid response structure`; the
earlier failure paths (HTTP error, truncated response, missing text, a
body that fails `JSON.parse`) are modelled by the caller never receiving
a `RawResult` at all.  Entries are renamed with
`name: String(stream.name || 'Unknown')`, weights coerced with
`weightKg: parseFloat(stream.weightKg) || 0`, and then only entries with
`stream.name && stream.weightKg >= 0` are kept — so a negative-weight
entry is dropped, not coerced, while an empty-named entry is kept under
the name `Unknown`.  `totalEstimateKg` is
`parseFloat(result.totalEstimateKg) ||` the sum of the kept weights. -/
def normalizeAnalyzeResult (r : RawResult) : Option AnalyzeResult :=
  match r.streams with
  | none => none
  | some raws =>
    let mapped := raws.map fun s =>
      NamedWeight.mk (jsNameOrUnknown s.name) (jsNumOr0 s.weightKg)
    let filtered := mapped.filter fun s => s.name != "" && decide (0 ≤ s.weightKg)
    let total := match r.totalEstimateKg with
      | none => sumWeights filtered
      | some t => if t = 0 then sumWeights filtered else t
    some { streams := filtered, totalEstimateKg := total,
           confidence := r.confidence, notes := r.notes }

/-- editor.js:493-497: each applied stream receives a fresh uuid; name and
weight are copied verbatim. -/
def assignStreamIds (n : Nat) : List NamedWeight → List StreamEntry × Nat
  | [] => ([], n)
  | s :: rest =>
    let p := assignStreamIds (n + 1) rest
    ({ id := uuidGen n, name := s.name, weightKg := s.weightKg } :: p.1, p.2)

/-- editor.js:485-515: applying a successful analysis result to the
current scan.  The total is replaced only when `result.totalEstimateKg > 0`,
the stream list is replaced (wholesale) only when the validated result has
at least one stream, and the notes are set only when the result carries
truthy notes and the scan has none. -/
def applyAnalyzeResult (n : Nat) (scan : Scan) (res : AnalyzeResult) :
    Scan × Nat :=
  let scan1 :=
    if 0 < res.totalEstimateKg then
      { scan with totalResidualKg := some res.totalEstimateKg }
    else scan
  let p :=
    if res.streams.isEmpty then (scan1, n)
    else
      let q := assignStreamIds n res.streams
      ({ scan1 with streams := q.1 }, q.2)
  let scan2 :=
    if jsTruthy res.notes && !jsTruthy p.1.notes then
      { p.1 with notes := some (String.append ("AI Analysis: ") (res.notes.getD (""))) }
    else p.1
  (scan2, p.2)

/-- editor.js:453-534 `handleAnalyze`: `outcome = none` models a failed or
timed-out `analyzeWasteImage` call, `some raw` a completed call whose
parsed body is `raw`.  Every thrown error (including the validation
throw inside `analyzeWasteImage`) lands in the catch block with the
current scan untouched; the repository is never involved. -/
def handleAnalyze (n : Nat) (scan : Scan) (outcome : Option RawResult) :
    Scan × Nat :=
  match outcome with
  | none => (scan, n)
  | some raw =>
    match normalizeAnalyzeResult raw with
    | none => (scan, n)
    | some res => applyAnalyzeResult n scan res

/-- The settings document `{geminiApiKey: string|null}` (storage.js:233-237). -/
structure Settings where
  geminiApiKey : Option String
deriving DecidableEq, Repr

/-- The settings LocalStorage cell. -/
inductive SettingsBytes where
  | absent : SettingsBytes
  | malformed : SettingsBytes
  | doc : Settings → SettingsBytes
deriving DecidableEq, Repr

/-- storage.js:233-237 `getDefaultSettings`. -/
def getDefaultSettings : Settings := { geminiApiKey := none }

/-- storage.js:243-254 `loadSettings`:
`{...getDefaultSettings(), ...JSON.parse(stored)}`; defaults on an absent
key or a parse failure.  With the single field the spread merge returns
the stored document itself. -/
def loadSettings (st : SettingsBytes) : Settings :=
  match st with
  | .absent => getDefaultSettings
  | .malformed => getDefaultSettings
  | .doc s => s

/-- storage.js:281-285 `setApiKey`:
`settings.geminiApiKey = apiKey || null`, then `saveSettings`. -/
def setApiKey (apiKey : Option String) (st : SettingsBytes) : SettingsBytes :=
  let s := loadSettings st
  .doc { s with geminiApiKey := jsStrOrNull apiKey }

/-- storage.js:272-275 `getApiKey`: `settings.geminiApiKey || null`. -/
def getApiKey (st : SettingsBytes) : Option String :=
  jsStrOrNull (loadSettings st).geminiApiKey

/-- storage.js:291-293 `hasApiKey`: `!!getApiKey()`; the argument is
`null` or a non-empty string, so JS truthiness is `Option.isSome`. -/
def hasApiKey (st : SettingsBytes) : Bool := (getApiKey st).isSome

/-- Loading a parsed document returns it unchanged, whichever branch of
the version check runs, because the migration chain is empty. -/
theorem loadData_doc (d : Data) :
    loadData (StoredBytes.doc d) = (d, StoredBytes.doc d) := by
  simp only [loadData, migrateSchema]
  split <;> rfl

/-- The storage cell is unchanged by a bare load: the no-data and catch
branches do not write, and the migration write-back writes the result of
the identity migration. -/
theorem loadData_snd (st : StoredBytes) : (loadData st).2 = st := by
  cases st with
  | absent => rfl
  | malformed => rfl
  | doc d => rw [loadData_doc]

/-- Re-normalizing already-normalized streams whose ids are non-empty is
the identity and consumes no uuids. -/
theorem normStreams_map_toDraft (n : Nat) (l : List StreamEntry)
    (h : ∀ e ∈ l, e.id ≠ "") :
    normStreams n (l.map StreamEntry.toDraft) = (l, n) := by
  induction l with
  | nil => rfl
  | cons e rest ih =>
    have he : e.id ≠ "" := h e (List.mem_cons_self _ _)
    have hr := ih fun x hx => h x (List.mem_cons_of_mem _ hx)
    simp [normStreams, StreamEntry.toDraft, jsStrOrNull, jsNumOr0, he, hr]

/-- Normalization stores the given weights verbatim (modulo the `|| 0`
collapse of a missing weight); in particular no sign coercion happens. -/
theorem normStreams_weights (l : List DraftStream) (n : Nat) :
    (normStreams n l).1.map StreamEntry.weightKg
      = l.map fun s => jsNumOr0 s.weightKg := by
  induction l generalizing n with
  | nil => rfl
  | cons s rest ih =>
    cases hid : jsStrOrNull s.id <;> simp [normStreams, hid, ih]

/-- When no record matches the id, the replacement walk finds nothing. -/
theorem updateGo_eq_none (now id : String) (patch : ScanPatch) (n : Nat)
    (l : List Scan) (h : findScan id l = none) :
    updateGo now id patch n l = none := by
  induction l with
  | nil => rfl
  | cons s rest ih =>
    by_cases hs : s.id = id
    · simp [findScan, hs] at h
    · simp only [findScan, if_neg hs] at h
      simp [updateGo, hs, ih h]

/-- When a record matches, the replacement walk substitutes the merged
record for the first match and returns it. -/
theorem updateGo_found (now id : String) (patch : ScanPatch) (n : Nat)
    (l : List Scan) (old : Scan) (h : findScan id l = some old) :
    ∃ l2, updateGo now id patch n l =
        some (l2, (mergeScan now old patch n).1, (mergeScan now old patch n).2) ∧
      (mergeScan now old patch n).1 ∈ l2 := by
  induction l with
  | nil => simp [findScan] at h
  | cons s rest ih =>
    by_cases hs : s.id = id
    · simp only [findScan, if_pos hs, Option.some.injEq] at h
      refine ⟨(mergeScan now old patch n).1 :: rest, ?_, List.mem_cons_self _ _⟩
      rw [← h]
      simp [updateGo, hs]
    · simp only [findScan, if_neg hs] at h
      obtain ⟨l2, h1, h2⟩ := ih h
      exact ⟨s :: l2, by simp [updateGo, hs, h1], List.mem_cons_of_mem _ h2⟩

/-- When no record matches the id, the deletion walk finds nothing. -/
theorem deleteGo_eq_none (id : String) (l : List Scan)
    (h : findScan id l = none) : deleteGo id l = none := by
  induction l with
  | nil => rfl
  | cons s rest ih =>
    by_cases hs : s.id = id
    · simp [findScan, hs] at h
    · simp only [findScan, if_neg hs] at h
      simp [deleteGo, hs, ih h]

/-- Merging the empty patch into a record whose stream ids are non-empty
changes only `updatedAt` and consumes no uuids. -/
theorem mergeScan_empty (now : String) (old : Scan) (n : Nat)
    (h : ∀ e ∈ old.streams, e.id ≠ "") :
    mergeScan now old emptyPatch n = ({ old with updatedAt := now }, n) := by
  simp [mergeScan, emptyPatch, normStreams_map_toDraft n old.streams h]

/-- Freshly assigned ids leave names and weights of the applied analysis
streams untouched. -/
theorem assignStreamIds_maps (l : List NamedWeight) (n : Nat) :
    (assignStreamIds n l).1.map StreamEntry.name = l.map NamedWeight.name ∧
    (assignStreamIds n l).1.map StreamEntry.weightKg = l.map NamedWeight.weightKg := by
  induction l generalizing n with
  | nil => exact ⟨rfl, rfl⟩
  | cons s rest ih =>
    have h := ih (n + 1)
    simp [assignStreamIds, h.1, h.2]

/-- A draft carrying the negative total of the specification scenario
`create({totalResidualKg: -5})`. -/
def draftNeg : DraftScan :=
  { location := none, notes := none, photo := none,
    totalResidualKg := some (-5), streams := none }

/-- A scan with an empty total and one weighed stream. -/
def scanC2 : Scan :=
  { id := "scan-w", createdAt := "2024-01-01T00:00:00.000Z",
    updatedAt := "2024-01-01T00:00:00.000Z", location := none, notes := none,
    photo := none, totalResidualKg := some 0,
    streams := [{ id := "s1", name := "Glass", weightKg := 1 }] }

/-- The over-extraction scenario of the specification: total 100 kg,
streams 30 + 20 + 60 = 110 kg. -/
def scanOver : Scan :=
  { id := "scan-o", createdAt := "2024-01-01T00:00:00.000Z",
    updatedAt := "2024-01-01T00:00:00.000Z", location := none, notes := none,
    photo := none, totalResidualKg := some 100,
    streams := [{ id := "s1", name := "Cardboard", weightKg := 30 },
                { id := "s2", name := "Metal", weightKg := 20 },
                { id := "s3", name := "Glass", weightKg := 60 }] }

/-- C1 (counterexample): `createScan` applies `scanData.totalResidualKg || 0`,
and `-5` is truthy in JS, so `create({totalResidualKg: -5})` stores `-5`,
not the `0` the claim requires; the stored value is negative. -/
theorem C1_counterexample :
    (createScan ("2024-01-01T00:00:00.000Z") 0 draftNeg StoredBytes.absent).1.totalResidualKg
        = some (-5) ∧
    ¬ (0 : Rat) ≤ -5 := by
  refine ⟨rfl, by norm_num⟩

/-- C1 (amended): the boundary applies no sign coercion.  `parseNumber`
returns every parsed number unchanged, negatives included, and maps only a
parse failure to `0`; `createScan` stores the given `totalResidualKg` and
the given stream weights verbatim (with `|| 0` collapsing only a missing
value to `0`), so `create({totalResidualKg: -5})` stores `-5`. -/
theorem C1_amended :
    (∀ v : Rat, parseNumber (some v) = v) ∧
    parseNumber none = 0 ∧
    (∀ (now : String) (n : Nat) (sd : DraftScan) (st : StoredBytes),
      (createScan now n sd st).1.totalResidualKg = some (jsNumOr0 sd.totalResidualKg)) ∧
    (∀ (now : String) (n : Nat) (sd : DraftScan) (st : StoredBytes),
      (createScan now n sd st).1.streams.map StreamEntry.weightKg
        = (sd.streams.getD []).map fun s => jsNumOr0 s.weightKg) := by
  refine ⟨fun v => rfl, rfl, fun now n sd st => rfl, fun now n sd st => ?_⟩
  simp [createScan, normStreams_weights]

/-- C1 witness: the amended statement instantiated at the scenario draft. -/
theorem C1_witness :
    (createScan ("t0") 0 draftNeg StoredBytes.absent).1.totalResidualKg = some (-5) :=
  C1_amended.2.2.1 ("t0") 0 draftNeg StoredBytes.absent

/-- C2 (counterexample): for a scan with `totalResidualKg = 0` and one
1 kg stream, the report (export.js:55, condition
`extractedKg > totalResidualKg` with no positivity guard) renders the
warning block although `isOverExtracted` is false, contradicting the
claim that the warning appears exactly when `isOverExtracted` holds and
never when the total is 0. -/
theorem C2_counterexample :
    reportHasWarning scanC2 = true ∧ isOverExtracted scanC2 = false := by
  have h1 : extractedKg scanC2 = 1 := by simp [extractedKg, scanC2]
  have h2 : totalRead scanC2 = 0 := rfl
  have h3 : (0 : Rat) < 1 := by norm_num
  constructor
  · simp [reportHasWarning, warningHtml, h1, h2, h3]
  · simp [isOverExtracted, h2]

/-- C2 (amended): the report warning block is governed by
`extracted > total` alone; it agrees with `isOverExtracted` whenever
`totalResidualKg > 0` (the condition the export/print handlers enforce
before generating a report), but for a zero — or negative — total with
positive extracted weight the report shows the warning even though
`isOverExtracted` is false. -/
theorem C2_amended (scan : Scan) :
    reportHasWarning scan = decide (totalRead scan < extractedKg scan) ∧
    (0 < totalRead scan → reportHasWarning scan = isOverExtracted scan) := by
  constructor
  · by_cases h : totalRead scan < extractedKg scan <;>
      simp [reportHasWarning, warningHtml, h]
  · intro h0
    by_cases h : totalRead scan < extractedKg scan <;>
      simp [reportHasWarning, warningHtml, isOverExtracted, h, h0]

/-- C2 witness: on the over-extraction scenario (total 100, extracted 110)
the report warning and `isOverExtracted` agree. -/
theorem C2_witness : reportHasWarning scanOver = isOverExtracted scanOver :=
  (C2_amended scanOver).2 (by decide)

/-- C3 (counterexample): loading the stored document
`{schemaVersion: 0, scans: []}` yields a collection still at version 0,
not at the current version 1, and persists version-0 data back — because
`migrateSchema` never raises the version tag. -/
theorem C3_counterexample :
    (loadData (StoredBytes.doc { schemaVersion := 0, scans := [] })).1.schemaVersion = 0 ∧
    (loadData (StoredBytes.doc { schemaVersion := 0, scans := [] })).2
      = StoredBytes.doc { schemaVersion := 0, scans := [] } ∧
    (0 : Int) ≠ CURRENT_SCHEMA_VERSION := by
  refine ⟨rfl, ?_, by decide⟩
  rw [loadData_doc]

/-- C3 (amended): the migration chain is empty at schema version 1, so
`migrateSchema` is the identity: loading a document whose `schemaVersion`
is below current returns it unchanged (the version tag is not raised and
the identical document is persisted back), and loading is idempotent —
the stored bytes are a fixed point of load, while remaining below the
current version. -/
theorem C3_amended :
    (∀ d : Data, migrateSchema d = d) ∧
    (∀ d : Data, loadData (StoredBytes.doc d) = (d, StoredBytes.doc d)) ∧
    (∀ st : StoredBytes, loadData (loadData st).2 = loadData st) := by
  refine ⟨fun d => rfl, fun d => loadData_doc d, fun st => ?_⟩
  rw [loadData_snd]

/-- C3 witness: the amended statement instantiated at a version-0 document. -/
theorem C3_witness :
    loadData (StoredBytes.doc { schemaVersion := 0, scans := [] })
      = ({ schemaVersion := 0, scans := [] }, StoredBytes.doc { schemaVersion := 0, scans := [] }) :=
  C3_amended.2.1 { schemaVersion := 0, scans := [] }

/-- A stored scan used to exercise `updateScan`. -/
def scanA : Scan :=
  { id := "a", createdAt := "2024-01-01T00:00:00.000Z",
    updatedAt := "2024-01-01T00:00:00.000Z", location := none, notes := none,
    photo := none, totalResidualKg := some 10,
    streams := [{ id := "s1", name := "Metal", weightKg := 20 }] }

/-- A collection at the current schema version holding `scanA`. -/
def stA : StoredBytes :=
  StoredBytes.doc { schemaVersion := 1, scans := [scanA] }

/-- A patch that provides `createdAt` (as the editor does on every save:
`updateScan(currentScan.id, currentScan)` passes the whole record, whose
`createdAt` the date-time input may have changed). -/
def patchA : ScanPatch :=
  { emptyPatch with createdAt := some ("2020-05-05T00:00:00.000Z") }

/-- C4 (counterexample): the spread `{...old, ...updates, updatedAt: now}`
lets a patch overwrite `createdAt`: updating `scanA` with a patch carrying
`createdAt` yields a stored record whose `createdAt` differs from the
original, contradicting the claim that every successful update keeps
`createdAt` unchanged. -/
theorem C4_counterexample :
    (updateScan ("2024-02-02T00:00:00.000Z") 0 ("a") patchA stA).1
      = some { scanA with
                 createdAt := "2020-05-05T00:00:00.000Z",
                 updatedAt := "2024-02-02T00:00:00.000Z" } ∧
    ("2020-05-05T00:00:00.000Z" : String) ≠ scanA.createdAt :=
  ⟨rfl, by decide⟩

/-- C4 (amended): `updateScan` is a shallow merge in which every field
provided by the patch overwrites — `id` and `createdAt` included — and
every omitted field is retained; `updatedAt` is always set to now, and the
returned record is the one persisted.  With the empty patch `{}` only
`updatedAt` changes (stream re-normalization is the identity on records
whose stream ids are non-empty, as they are on every persisted record). -/
theorem C4_amended :
    (∀ (now : String) (n : Nat) (id : String) (patch : ScanPatch)
        (st : StoredBytes) (old u : Scan),
      findScan id (loadData st).1.scans = some old →
      (updateScan now n id patch st).1 = some u →
      u.id = patch.id.getD old.id ∧
      u.createdAt = patch.createdAt.getD old.createdAt ∧
      u.updatedAt = now ∧
      u.location = patch.location.getD old.location ∧
      u.notes = patch.notes.getD old.notes ∧
      u.photo = patch.photo.getD old.photo ∧
      u.totalResidualKg = (patch.totalResidualKg.map some).getD old.totalResidualKg) ∧
    (∀ (now : String) (n : Nat) (id : String) (st : StoredBytes) (old : Scan),
      findScan id (loadData st).1.scans = some old →
      (∀ e ∈ old.streams, e.id ≠ "") →
      (updateScan now n id emptyPatch st).1 = some { old with updatedAt := now }) ∧
    (∀ (now : String) (n : Nat) (id : String) (patch : ScanPatch)
        (st : StoredBytes) (u : Scan) (st2 : StoredBytes) (n2 : Nat),
      updateScan now n id patch st = (some u, st2, n2) →
      ∃ d2, st2 = StoredBytes.doc d2 ∧ u ∈ d2.scans) := by
  refine ⟨?_, ?_, ?_⟩
  · intro now n id patch st old u h hu
    obtain ⟨l2, h1, _⟩ := updateGo_found now id patch n _ old h
    simp only [updateScan, h1, Option.some.injEq] at hu
    subst hu
    refine ⟨rfl, rfl, rfl, rfl, rfl, rfl, ?_⟩
    cases hp : patch.totalResidualKg <;> simp [mergeScan, hp]
  · intro now n id st old h hids
    obtain ⟨l2, h1, _⟩ := updateGo_found now id emptyPatch n _ old h
    rw [mergeScan_empty now old n hids] at h1
    simp only [updateScan, h1]
  · intro now n id patch st u st2 n2 h
    cases hf : findScan id (loadData st).1.scans with
    | none =>
      have hg := updateGo_eq_none now id patch n _ hf
      simp [updateScan, hg] at h
    | some old =>
      obtain ⟨l2, h1, hmem⟩ := updateGo_found now id patch n _ old hf
      simp only [updateScan, h1, Prod.mk.injEq, Option.some.injEq] at h
      obtain ⟨h2, h3, h4⟩ := h
      exact ⟨{ (loadData st).1 with scans := l2 }, h3.symm, h2 ▸ hmem⟩

/-- C4 witness: the empty-patch part instantiated at the stored `scanA`. -/
theorem C4_witness :
    (updateScan ("2024-03-03T00:00:00.000Z") 7 ("a") emptyPatch stA).1
      = some { scanA with updatedAt := "2024-03-03T00:00:00.000Z" } :=
  C4_amended.2.1 ("2024-03-03T00:00:00.000Z") 7 ("a") stA scanA (by decide) (by decide)

/-- A scan with an existing stream list, the target of an applied AI
analysis. -/
def scanC5 : Scan :=
  { id := "b", createdAt := "2024-01-01T00:00:00.000Z",
    updatedAt := "2024-01-01T00:00:00.000Z", location := none, notes := none,
    photo := none, totalResidualKg := some 100,
    streams := [{ id := "s1", name := "Cardboard", weightKg := 5 }] }

/-- A parsed model response whose only stream entry has an empty name. -/
def rawC5 : RawResult :=
  { streams := some [{ name := some (""), weightKg := some 2 }],
    totalEstimateKg := some 7, confidence := none, notes := none }

/-- A parsed model response with no `streams` array (shape validation
fails). -/
def rawBad : RawResult :=
  { streams := none, totalEstimateKg := some 5,
    confidence := none, notes := none }

/-- C5 (counterexample): applying an analysis whose only entry has an
empty name does not discard that entry — gemini.js:117 renames it to
`Unknown` and it replaces the scan's stream list — contradicting the claim
that entries with empty names are discarded. -/
theorem C5_counterexample :
    (handleAnalyze 0 scanC5 (some rawC5)).1.streams
        = [{ id := uuidGen 0, name := "Unknown", weightKg := 2 }] ∧
    (handleAnalyze 0 scanC5 (some rawC5)).1.streams.map StreamEntry.name
        ≠ scanC5.streams.map StreamEntry.name := by
  exact ⟨rfl, by decide⟩

/-- C5 (amended): a failed call or an invalid response shape leaves the
scan untouched; a validated result carries only entries with non-empty
names (empty names are renamed to `Unknown`, not discarded) and
non-negative weights (non-numeric weights are coerced to 0, while
negative-weight entries are dropped); applying a result replaces the
stream list wholesale — names and weights copied verbatim under fresh
ids — but only when the validated result has at least one stream, and
replaces `totalResidualKg` only when `totalEstimateKg > 0`. -/
theorem C5_amended :
    (∀ (n : Nat) (scan : Scan), handleAnalyze n scan none = (scan, n)) ∧
    (∀ (n : Nat) (scan : Scan) (raw : RawResult),
      normalizeAnalyzeResult raw = none →
      handleAnalyze n scan (some raw) = (scan, n)) ∧
    (∀ (raw : RawResult) (res : AnalyzeResult),
      normalizeAnalyzeResult raw = some res →
      ∀ s ∈ res.streams, s.name ≠ "" ∧ 0 ≤ s.weightKg) ∧
    (∀ (n : Nat) (scan : Scan) (res : AnalyzeResult),
      (applyAnalyzeResult n scan res).1.totalResidualKg
          = (if 0 < res.totalEstimateKg then some res.totalEstimateKg
             else scan.totalResidualKg) ∧
      (applyAnalyzeResult n scan res).1.streams
          = (if res.streams.isEmpty then scan.streams
             else (assignStreamIds n res.streams).1)) ∧
    (∀ (n : Nat) (res : AnalyzeResult),
      (assignStreamIds n res.streams).1.map StreamEntry.name
          = res.streams.map NamedWeight.name ∧
      (assignStreamIds n res.streams).1.map StreamEntry.weightKg
          = res.streams.map NamedWeight.weightKg) := by
  refine ⟨fun n scan => rfl, ?_, ?_, ?_, fun n res => assignStreamIds_maps res.streams n⟩
  · intro n scan raw h
    simp [handleAnalyze, h]
  · intro raw res h s hs
    cases hraws : raw.streams with
    | none => simp [normalizeAnalyzeResult, hraws] at h
    | some raws =>
      simp only [normalizeAnalyzeResult, hraws, Option.some.injEq] at h
      subst h
      simp only [List.mem_filter, Bool.and_eq_true, bne_iff_ne, ne_eq,
        decide_eq_true_eq] at hs
      exact ⟨hs.2.1, hs.2.2⟩
  · intro n scan res
    constructor
    · by_cases h1 : 0 < res.totalEstimateKg <;> by_cases h2 : res.streams.isEmpty <;>
        simp [applyAnalyzeResult, h1, h2] <;> split <;> rfl
    · by_cases h1 : 0 < res.totalEstimateKg <;> by_cases h2 : res.streams.isEmpty <;>
        simp [applyAnalyzeResult, h1, h2] <;> split <;> rfl

/-- C5 witness: the invalid-shape part instantiated at a response with no
streams array. -/
theorem C5_witness : handleAnalyze 3 scanC5 (some rawBad) = (scanC5, 3) :=
  C5_amended.2.1 3 scanC5 rawBad rfl

/-- C6: `remaining(scan) = max(0, totalResidualKg - extracted(scan))`,
hence it is never negative and clamps to 0 under over-extraction, in the
formula shared by the report (export.js:15) and the editor summary
(editor.js:226). -/
theorem C6_remaining_clamped (scan : Scan) :
    remainingKg scan = max 0 (totalRead scan - extractedKg scan) ∧
    0 ≤ remainingKg scan ∧
    (totalRead scan < extractedKg scan → remainingKg scan = 0) := by
  refine ⟨rfl, le_max_left _ _, fun h => ?_⟩
  have hle : totalRead scan - extractedKg scan ≤ 0 := by linarith
  exact max_eq_left hle

/-- A stored scan whose total is negative (reachable, since negative
inputs are persisted verbatim) and whose extracted weight therefore
exceeds the total. -/
def scanNegTotal : Scan :=
  { id := "n", createdAt := "2024-01-01T00:00:00.000Z",
    updatedAt := "2024-01-01T00:00:00.000Z", location := none, notes := none,
    photo := none, totalResidualKg := some (-1), streams := [] }

/-- C6 witness: the clamping part instantiated at an over-extracted scan. -/
theorem C6_witness : remainingKg scanNegTotal = 0 :=
  (C6_remaining_clamped scanNegTotal).2.2 (by decide)

/-- C7: with `totalResidualKg = 0` (and likewise when the field is unset,
since every site reads it as `scan.totalResidualKg || 0`), the ternary
guards of export.js:16/35 and editor.js:227/244 return 0 for the
separation percentage and for every per-stream share; the division is
never evaluated. -/
theorem C7_zero_guard (scan : Scan) (h : totalRead scan = 0) :
    separationPct scan = 0 ∧ ∀ s : StreamEntry, streamSharePct scan s = 0 := by
  refine ⟨?_, fun s => ?_⟩ <;> simp [separationPct, streamSharePct, h]

/-- A scan whose `totalResidualKg` field is unset. -/
def scanZ : Scan :=
  { id := "z", createdAt := "2024-01-01T00:00:00.000Z",
    updatedAt := "2024-01-01T00:00:00.000Z", location := none, notes := none,
    photo := none, totalResidualKg := none,
    streams := [{ id := "s1", name := "Glass", weightKg := 3 }] }

/-- C7 witness: instantiated at a scan with an unset total and a weighed
stream. -/
theorem C7_witness :
    separationPct scanZ = 0 ∧
    streamSharePct scanZ { id := "s1", name := "Glass", weightKg := 3 } = 0 :=
  ⟨(C7_zero_guard scanZ rfl).1, (C7_zero_guard scanZ rfl).2 _⟩

/-- C8: on an id absent from the stored collection, `updateScan` returns
`null` and `deleteScan` returns `false`; both return before `saveData`,
so the storage cell is exactly what it was (the functions are total, so no
exception is modelled or needed). -/
theorem C8_not_found (now : String) (n : Nat) (id : String) (patch : ScanPatch)
    (st : StoredBytes) (h : findScan id (loadData st).1.scans = none) :
    updateScan now n id patch st = (none, st, n) ∧
    deleteScan id st = (false, st) := by
  constructor
  · simp [updateScan, updateGo_eq_none now id patch n _ h, loadData_snd]
  · simp [deleteScan, deleteGo_eq_none id _ h, loadData_snd]

/-- C8 witness: instantiated at an unknown id over empty storage. -/
theorem C8_witness :
    updateScan ("t1") 0 ("missing") emptyPatch StoredBytes.absent
        = (none, StoredBytes.absent, 0) ∧
    deleteScan ("missing") StoredBytes.absent = (false, StoredBytes.absent) :=
  C8_not_found ("t1") 0 ("missing") emptyPatch StoredBytes.absent rfl

/-- C9: with no stored data, and equally when the stored document fails to
parse, `loadData` returns the fresh empty collection at the current schema
version without writing anything back: the storage cell (including a
corrupt payload) is left exactly as it was. -/
theorem C9_load_fallback :
    loadData StoredBytes.absent = (getDefaultData, StoredBytes.absent) ∧
    loadData StoredBytes.malformed = (getDefaultData, StoredBytes.malformed) ∧
    getDefaultData.schemaVersion = CURRENT_SCHEMA_VERSION ∧
    getDefaultData.scans = [] :=
  ⟨rfl, rfl, rfl, rfl⟩

/-- C10: `setApiKey` stores `apiKey || null`, so the empty string (and a
missing value) store `null`, after which `getApiKey` returns `null` and
`hasApiKey` is false; a non-empty string round-trips through set/get; and
`hasApiKey` is true exactly when `getApiKey` returns a non-null value. -/
theorem C10_api_key :
    (∀ st : SettingsBytes, getApiKey (setApiKey none st) = none) ∧
    (∀ st : SettingsBytes, getApiKey (setApiKey (some ("")) st) = none ∧
        hasApiKey (setApiKey (some ("")) st) = false) ∧
    (∀ (st : SettingsBytes) (v : String), v ≠ "" →
        getApiKey (setApiKey (some v) st) = some v ∧
        hasApiKey (setApiKey (some v) st) = true) ∧
    (∀ st : SettingsBytes, hasApiKey st = (getApiKey st).isSome) := by
  refine ⟨fun st => rfl, fun st => ⟨rfl, rfl⟩, fun st v h => ?_, fun st => rfl⟩
  have h1 : jsStrOrNull (some v) = some v := by simp [jsStrOrNull, h]
  constructor
  · simp [getApiKey, setApiKey, loadSettings, h1]
  · simp [hasApiKey, getApiKey, setApiKey, loadSettings, h1]

/-- C10 witness: a non-empty key round-trips from empty storage. -/
theorem C10_witness :
    getApiKey (setApiKey (some ("AIza-demo")) SettingsBytes.absent)
        = some ("AIza-demo") :=
  (C10_api_key.2.2.1 SettingsBytes.absent ("AIza-demo") (by decide)).1
